import Mathlib

/-!
Shallow embedding of the `private_messages` Solana program
(`programs/private_messages/src/lib.rs`) and its Arcium MPC circuit
(`encrypted-ixs/src/lib.rs`).

Machine integers are modelled as `Nat`/`Int`; byte arrays `[u8; n]` as
functions `Fin n → Nat`; Rust `Vec<u8>` as `List Nat`; fallible Anchor
instruction handlers return `Except`.  Anchor account constraints
(`#[derive(Accounts)]` structs) run before the handler body; the
constraints relevant to the claims are modelled as explicit checks at
the head of each instruction function.
-/

abbrev Pubkey := Nat

abbrev Bytes32 := Fin 32 → Nat

abbrev Bytes24 := Fin 24 → Nat

abbrev Bytes16 := Fin 16 → Nat

/-- `const MAX_MESSAGE_SIZE: usize = 256;` -/
def MAX_MESSAGE_SIZE : Nat := 256

-- ============================================================================
-- MPC circuit (encrypted-ixs/src/lib.rs)
-- ============================================================================

/-- The body of the circuit `verify_and_reveal_sender`:
`let mut is_match: u8 = 1; for i in 0..32 { if recipient_hash[i] != requester_hash[i] { is_match = 0; } }`.
The `for` loop is embedded as a left fold over the index list `0..32`. -/
def verify_and_reveal_sender (recipient_hash requester_hash : Bytes32) : Nat :=
  (List.finRange 32).foldl
    (fun is_match i => if recipient_hash i ≠ requester_hash i then 0 else is_match) 1

/-- Instrumented version of the same loop that also records, in order, the
byte positions the loop examines.  Its second component is provably equal to
`verify_and_reveal_sender`. -/
def verify_and_reveal_sender_trace (recipient_hash requester_hash : Bytes32) :
    List (Fin 32) × Nat :=
  (List.finRange 32).foldl
    (fun acc i =>
      (acc.1 ++ [i], if recipient_hash i ≠ requester_hash i then 0 else acc.2))
    ([], 1)

-- ============================================================================
-- Error codes (lib.rs `ErrorCode`) and Anchor framework errors
-- ============================================================================

/-- The program's `#[error_code] enum ErrorCode`. -/
inductive ErrorCode
  | AbortedComputation
  | ClusterNotSet
  | MessageTooLong
  | Unauthorized
deriving DecidableEq, Repr

/-- An instruction can fail either with one of the program's custom error
codes or with an Anchor framework error raised by an account constraint.
`constraintSeeds` is the framework error for a `seeds = [...]` constraint
whose derived address does not match the passed account. -/
inductive ProgramError
  | code : ErrorCode → ProgramError
  | constraintSeeds : ProgramError
deriving DecidableEq, Repr

-- ============================================================================
-- Account structures
-- ============================================================================

/-- `UserAccount { wallet, x25519_pubkey, message_count, bump }` -/
structure UserAccount where
  wallet : Pubkey
  x25519_pubkey : Bytes32
  message_count : Nat
  bump : Nat

/-- `MessageAccount { sender, recipient, encrypted_content, nonce, timestamp, is_read, bump }` -/
structure MessageAccount where
  sender : Pubkey
  recipient : Pubkey
  encrypted_content : List Nat
  nonce : Bytes24
  timestamp : Int
  is_read : Bool
  bump : Nat

/-- `PrivateMessageAccount` with the encrypted metadata fields. -/
structure PrivateMessageAccount where
  encrypted_sender_hash : Bytes32
  encrypted_recipient_hash : Bytes32
  encrypted_content : List Nat
  nonce : Bytes24
  timestamp : Int
  mpc_pubkey : Bytes32
  mpc_nonce : Nat
  bump : Nat

/-- `PrivateMessageCounter { count, bump }` -/
structure PrivateMessageCounter where
  count : Nat
  bump : Nat

/-- `ArciumSignerAccount` (only its bump is touched by the program). -/
structure ArciumSignerAccount where
  bump : Nat

-- ============================================================================
-- Events (lib.rs `#[event]` structs)
-- ============================================================================

inductive Event
  | userRegistered (wallet : Pubkey) (x25519_pubkey : Bytes32)
  | userKeyUpdated (wallet : Pubkey) (new_x25519_pubkey : Bytes32)
  | messageSent (sender recipient : Pubkey) (timestamp : Int) (message_index : Nat)
  | messageRead (sender recipient : Pubkey) (timestamp : Int)
  | testAddResult (result : Bytes32) (nonce : Bytes16)
  | privateMessageSent (message_index : Nat) (timestamp : Int)
  | privateAccessVerified (encrypted_result : Bytes32) (nonce : Bytes16)

-- ============================================================================
-- Instruction handlers
-- ============================================================================

/-- `register_user`: creates the user account at PDA `["user", owner]` with
`wallet = owner`, `message_count = 0`, and emits `UserRegistered`.  (The
`init` constraint guarantees the account did not exist; duplicate
registration is rejected by the runtime, outside this model.) -/
def register_user (owner : Pubkey) (x25519_pubkey : Bytes32) (bump : Nat) :
    UserAccount × List Event :=
  (⟨owner, x25519_pubkey, 0, bump⟩, [Event.userRegistered owner x25519_pubkey])

/-- `update_user_key`: the `UpdateUserKey` accounts struct constrains
`user_account` to the PDA `seeds = [b"user", owner.key()]`, which (given that
`register_user` stores `wallet = owner` at that PDA) holds exactly when the
signing `owner` equals `user_account.wallet`; a mismatch is rejected by the
framework with a seeds-constraint error before the handler body runs.  The
handler then replaces `x25519_pubkey` and emits `UserKeyUpdated`. -/
def update_user_key (owner : Pubkey) (user_account : UserAccount)
    (new_x25519_pubkey : Bytes32) :
    Except ProgramError (UserAccount × List Event) :=
  if user_account.wallet = owner then
    .ok ({ user_account with x25519_pubkey := new_x25519_pubkey },
         [Event.userKeyUpdated user_account.wallet new_x25519_pubkey])
  else
    .error .constraintSeeds

/-- `send_message`: checks `encrypted_content.len() <= MAX_MESSAGE_SIZE`
first (`require!` raises `MessageTooLong` otherwise), then fills the new
`MessageAccount`, increments the recipient's `message_count`, and emits
`MessageSent` with the post-increment count as `message_index`.  `clock` is
`Clock::get()?.unix_timestamp`, `bump` the PDA bump of the new account. -/
def send_message (sender : Pubkey) (recipient_user : UserAccount)
    (encrypted_content : List Nat) (nonce : Bytes24) (clock : Int) (bump : Nat) :
    Except ProgramError (MessageAccount × UserAccount × List Event) :=
  if encrypted_content.length ≤ MAX_MESSAGE_SIZE then
    let message : MessageAccount :=
      { sender := sender
        recipient := recipient_user.wallet
        encrypted_content := encrypted_content
        nonce := nonce
        timestamp := clock
        is_read := false
        bump := bump }
    let recipient_user' :=
      { recipient_user with message_count := recipient_user.message_count + 1 }
    .ok (message, recipient_user',
         [Event.messageSent message.sender message.recipient message.timestamp
            recipient_user'.message_count])
  else
    .error (.code .MessageTooLong)

/-- `mark_as_read`: both the `MarkAsRead` accounts constraint
(`message_account.recipient == reader.key() @ ErrorCode::Unauthorized`) and
the handler's own `require!` check that the signer is the recipient; on
success sets `is_read = true` and emits `MessageRead`. -/
def mark_as_read (reader : Pubkey) (message_account : MessageAccount) :
    Except ProgramError (MessageAccount × List Event) :=
  if reader = message_account.recipient then
    .ok ({ message_account with is_read := true },
         [Event.messageRead message_account.sender message_account.recipient
            message_account.timestamp])
  else
    .error (.code .Unauthorized)

/-- `send_private_message`: checks the size bound first (`require!` with
`MessageTooLong`), then stores the message with its encrypted metadata,
increments the global `PrivateMessageCounter`, and emits
`PrivateMessageSent { message_index, timestamp }` where `message_index` is
the caller-supplied argument (the new message's PDA is
`["private_message", sender, message_index]`). -/
def send_private_message (sender : Pubkey) (private_message_counter : PrivateMessageCounter)
    (message_index : Nat)
    (encrypted_sender_hash encrypted_recipient_hash : Bytes32)
    (encrypted_content : List Nat) (nonce : Bytes24)
    (mpc_pubkey : Bytes32) (mpc_nonce : Nat) (clock : Int) (bump : Nat) :
    Except ProgramError (PrivateMessageAccount × PrivateMessageCounter × List Event) :=
  if encrypted_content.length ≤ MAX_MESSAGE_SIZE then
    let message : PrivateMessageAccount :=
      { encrypted_sender_hash := encrypted_sender_hash
        encrypted_recipient_hash := encrypted_recipient_hash
        encrypted_content := encrypted_content
        nonce := nonce
        timestamp := clock
        mpc_pubkey := mpc_pubkey
        mpc_nonce := mpc_nonce
        bump := bump }
    let counter' :=
      { private_message_counter with count := private_message_counter.count + 1 }
    .ok (message, counter', [Event.privateMessageSent message_index message.timestamp])
  else
    .error (.code .MessageTooLong)

-- ============================================================================
-- Arcium computation queueing (verify_private_message_access)
-- ============================================================================

/-- One argument pushed into an Arcium `ArgBuilder`. -/
inductive Arg
  | x25519_pubkey (k : Bytes32)
  | plaintext_u128 (n : Nat)
  | encrypted_u8 (c : Bytes32)

/-- The Arcium `ArgBuilder`: arguments accumulate in call order. -/
structure ArgBuilder where
  args : List Arg

def ArgBuilder.new : ArgBuilder := ⟨[]⟩

def ArgBuilder.x25519_pubkey (b : ArgBuilder) (k : Bytes32) : ArgBuilder :=
  ⟨b.args ++ [Arg.x25519_pubkey k]⟩

def ArgBuilder.plaintext_u128 (b : ArgBuilder) (n : Nat) : ArgBuilder :=
  ⟨b.args ++ [Arg.plaintext_u128 n]⟩

def ArgBuilder.encrypted_u8 (b : ArgBuilder) (c : Bytes32) : ArgBuilder :=
  ⟨b.args ++ [Arg.encrypted_u8 c]⟩

def ArgBuilder.build (b : ArgBuilder) : List Arg := b.args

/-- A callback instruction registration
(`VerifyAndRevealSenderCallback::callback_ix(computation_offset, &mxe_account, &[])`). -/
inductive CallbackIx
  | verifyAndRevealSender (computation_offset : Nat) (mxe_account : Nat)
  | testAdd (computation_offset : Nat) (mxe_account : Nat)

/-- What `queue_computation(accounts, computation_offset, args, None,
callbacks, num_shards, confirmation_delay)` submits to the cluster. -/
structure QueuedComputation where
  computation_offset : Nat
  args : List Arg
  callback_server : Option Nat
  callbacks : List CallbackIx
  num_shards : Nat
  confirmation_delay : Nat

/-- `verify_private_message_access`: sets the signer PDA bump, builds the
argument bundle with `ArgBuilder` in source order (ephemeral pubkey, nonce,
the message's stored `encrypted_recipient_hash`, the caller's
`encrypted_requester_hash`), and queues the computation with the single
`VerifyAndRevealSenderCallback` registration, `num_shards = 1`,
`confirmation_delay = 0`.  The handler itself emits no event. -/
def verify_private_message_access (private_message_account : PrivateMessageAccount)
    (computation_offset : Nat) (encrypted_requester_hash : Bytes32)
    (mpc_pubkey : Bytes32) (mpc_nonce : Nat) (mxe_account : Nat) (sign_bump : Nat) :
    ArciumSignerAccount × QueuedComputation × List Event :=
  let sign_pda_account : ArciumSignerAccount := ⟨sign_bump⟩
  let message := private_message_account
  let builder :=
    ((((ArgBuilder.new).x25519_pubkey mpc_pubkey).plaintext_u128
        mpc_nonce).encrypted_u8 message.encrypted_recipient_hash).encrypted_u8
      encrypted_requester_hash
  let args := builder.build
  (sign_pda_account,
   { computation_offset := computation_offset
     args := args
     callback_server := none
     callbacks := [CallbackIx.verifyAndRevealSender computation_offset mxe_account]
     num_shards := 1
     confirmation_delay := 0 },
   [])

-- ============================================================================
-- Callback (verify_and_reveal_sender_callback)
-- ============================================================================

/-- The decrypted-for-the-requester shared-encryption wrapper returned by the
cluster for an `Enc<Shared, u8>` output: one 32-byte ciphertext and a `u128`
nonce. -/
structure SharedEncryptedU8 where
  ciphertexts : Fin 1 → Bytes32
  nonce : Nat

/-- `VerifyAndRevealSenderOutput { field_0 }` -/
structure VerifyAndRevealSenderOutput where
  field_0 : SharedEncryptedU8

/-- `SignedComputationOutputs<T>`: `verify_output(cluster, computation)`
checks the cluster's signature over the outputs against the recorded
cluster / computation accounts; `some` is the verified output, `none` is a
verification failure (including a cluster-signalled abort). -/
structure SignedComputationOutputs (α : Type) where
  verify_output : Nat → Nat → Option α

/-- `u128::to_le_bytes` -/
def u128_to_le_bytes (n : Nat) : Bytes16 :=
  fun i => n / 256 ^ (i : Nat) % 256

/-- `verify_and_reveal_sender_callback`: on verification failure returns
`ErrorCode::AbortedComputation` (and emits nothing); on success emits
`PrivateAccessVerified { encrypted_result: result.ciphertexts[0],
nonce: result.nonce.to_le_bytes() }`. -/
def verify_and_reveal_sender_callback (cluster_account computation_account : Nat)
    (output : SignedComputationOutputs VerifyAndRevealSenderOutput) :
    Except ProgramError (List Event) :=
  match output.verify_output cluster_account computation_account with
  | some o =>
      let result := o.field_0
      .ok [Event.privateAccessVerified (result.ciphertexts 0)
             (u128_to_le_bytes result.nonce)]
  | none => .error (.code .AbortedComputation)

-- ============================================================================
-- Confidential-message lifecycle (create → request → settle)
-- ============================================================================

/-- All events emitted across one confidential-message lifecycle: a
`send_private_message`, followed by a `verify_private_message_access`
request on the stored message, followed by the
`verify_and_reveal_sender_callback` settlement.  A failing step contributes
no events (the transaction reverts). -/
def confidential_lifecycle_events
    (sender : Pubkey) (counter : PrivateMessageCounter) (message_index : Nat)
    (encrypted_sender_hash encrypted_recipient_hash : Bytes32)
    (encrypted_content : List Nat) (nonce : Bytes24)
    (mpc_pubkey : Bytes32) (mpc_nonce : Nat) (clock : Int) (bump : Nat)
    (computation_offset : Nat) (encrypted_requester_hash : Bytes32)
    (req_pubkey : Bytes32) (req_nonce : Nat) (mxe_account sign_bump : Nat)
    (cluster_account computation_account : Nat)
    (output : SignedComputationOutputs VerifyAndRevealSenderOutput) : List Event :=
  match send_private_message sender counter message_index encrypted_sender_hash
      encrypted_recipient_hash encrypted_content nonce mpc_pubkey mpc_nonce clock bump with
  | .error _ => []
  | .ok (message, _, sendEvents) =>
      let requestEvents :=
        (verify_private_message_access message computation_offset
          encrypted_requester_hash req_pubkey req_nonce mxe_account sign_bump).2.2
      let settleEvents :=
        match verify_and_reveal_sender_callback cluster_account computation_account output with
        | .error _ => []
        | .ok evs => evs
      sendEvents ++ requestEvents ++ settleEvents

-- ============================================================================
-- Example inputs used by witnesses
-- ============================================================================

/-- The all-zero 32-byte commitment. -/
def zeros32 : Bytes32 := fun _ => 0

/-- A commitment differing from `zeros32` only at the last byte (index 31). -/
def lastByteOne : Bytes32 := fun i => if (i : Nat) = 31 then 1 else 0

/-- The all-zero 24-byte nonce. -/
def zeros24 : Bytes24 := fun _ => 0

/-- A cluster output whose signature verification always fails
(cluster-signalled abort). -/
def outputAborted : SignedComputationOutputs VerifyAndRevealSenderOutput :=
  ⟨fun _ _ => none⟩

/-- A concrete verified shared-encrypted result: one ciphertext, nonce 9. -/
def exResult : SharedEncryptedU8 := ⟨fun _ => lastByteOne, 9⟩

/-- A cluster output whose signature verification succeeds with `exResult`. -/
def outputVerified : SignedComputationOutputs VerifyAndRevealSenderOutput :=
  ⟨fun _ _ => some ⟨exResult⟩⟩

-- ============================================================================
-- Helper lemmas about the circuit loop
-- ============================================================================

lemma foldl_is_match_eq (A B : Bytes32) (l : List (Fin 32)) :
    ∀ m : Nat,
      l.foldl (fun is_match i => if A i ≠ B i then 0 else is_match) m
        = if ∀ i ∈ l, A i = B i then m else 0 := by
  induction l with
  | nil => intro m; simp
  | cons a t ih =>
      intro m
      rw [List.foldl_cons, ih]
      by_cases h : A a = B a
      · simp [h]
      · simp [h]

lemma foldl_trace_split (A B : Bytes32) (l : List (Fin 32)) :
    ∀ (t : List (Fin 32)) (m : Nat),
      l.foldl
        (fun acc i => (acc.1 ++ [i], if A i ≠ B i then 0 else acc.2)) (t, m)
        = (t ++ l,
           l.foldl (fun is_match i => if A i ≠ B i then 0 else is_match) m) := by
  induction l with
  | nil => intro t m; simp
  | cons a s ih =>
      intro t m
      simp only [List.foldl_cons]
      rw [ih]
      simp

-- ============================================================================
-- Claims
-- ============================================================================

/-- C1: the secure equality circuit `verify_and_reveal_sender` returns 1 iff
the recipient commitment and the requester commitment agree at all 32 byte
positions, and returns 0 whenever any position differs. -/
theorem C1_verify_equality (A B : Bytes32) :
    (verify_and_reveal_sender A B = 1 ↔ ∀ i, A i = B i) ∧
    (∀ i : Fin 32, A i ≠ B i → verify_and_reveal_sender A B = 0) := by
  have hfold := foldl_is_match_eq A B (List.finRange 32) 1
  unfold verify_and_reveal_sender
  rw [hfold]
  constructor
  · by_cases h : ∀ i : Fin 32, A i = B i
    · simp [h]
    · have hnot : ¬ ∀ i ∈ List.finRange 32, A i = B i := by
        intro hall
        exact h fun i => hall i (List.mem_finRange i)
      simp [hnot, h]
  · intro i hi
    have hnot : ¬ ∀ j ∈ List.finRange 32, A j = B j := by
      intro hall
      exact hi (hall i (List.mem_finRange i))
    simp only [hnot, if_false]

/-- Witness for C1: at the all-zero pair the circuit returns 1; when only the
last byte (position 31) differs it returns 0. -/
theorem C1_verify_equality_witness :
    verify_and_reveal_sender zeros32 zeros32 = 1 ∧
    verify_and_reveal_sender zeros32 lastByteOne = 0 := by
  constructor
  · exact (C1_verify_equality zeros32 zeros32).1.mpr (fun i => rfl)
  · exact (C1_verify_equality zeros32 lastByteOne).2 ⟨31, by decide⟩ (by decide)

/-- C9: the comparison loop examines the same 32 positions `0,…,31`, in
order, for every pair of inputs — no early exit, so the position of the
first mismatch cannot influence which positions are examined; the
instrumented loop computes the same result as `verify_and_reveal_sender`. -/
theorem C9_constant_trace (A B C D : Bytes32) :
    (verify_and_reveal_sender_trace A B).1 = List.finRange 32 ∧
    (verify_and_reveal_sender_trace A B).1 = (verify_and_reveal_sender_trace C D).1 ∧
    (verify_and_reveal_sender_trace A B).1.length = 32 ∧
    (verify_and_reveal_sender_trace A B).2 = verify_and_reveal_sender A B := by
  have h1 := foldl_trace_split A B (List.finRange 32) [] 1
  have h2 := foldl_trace_split C D (List.finRange 32) [] 1
  unfold verify_and_reveal_sender_trace verify_and_reveal_sender
  rw [h1, h2]
  simp

/-- C3: for both `send_message` and `send_private_message`, a content
ciphertext of 257 bytes or more fails with `MessageTooLong` (the `require!`
runs before any state is written, and the `Except.error` result carries no
updated accounts), while a 256-byte ciphertext passes the size check and the
call succeeds. -/
theorem C3_size_bound (sender : Pubkey) (recipient_user : UserAccount)
    (counter : PrivateMessageCounter) (message_index : Nat)
    (esh erh : Bytes32) (encrypted_content : List Nat) (nonce : Bytes24)
    (mpc_pubkey : Bytes32) (mpc_nonce : Nat) (clock : Int) (bump : Nat) :
    (257 ≤ encrypted_content.length →
      send_message sender recipient_user encrypted_content nonce clock bump
        = .error (.code .MessageTooLong) ∧
      send_private_message sender counter message_index esh erh
        encrypted_content nonce mpc_pubkey mpc_nonce clock bump
        = .error (.code .MessageTooLong)) ∧
    (encrypted_content.length = 256 →
      (∃ r, send_message sender recipient_user encrypted_content nonce clock bump
        = .ok r) ∧
      (∃ r, send_private_message sender counter message_index esh erh
        encrypted_content nonce mpc_pubkey mpc_nonce clock bump = .ok r)) := by
  constructor
  · intro hlong
    have hgt : ¬ encrypted_content.length ≤ MAX_MESSAGE_SIZE := by
      unfold MAX_MESSAGE_SIZE
      omega
    constructor
    · unfold send_message
      rw [if_neg hgt]
    · unfold send_private_message
      rw [if_neg hgt]
  · intro hlen
    have hle : encrypted_content.length ≤ MAX_MESSAGE_SIZE := by
      unfold MAX_MESSAGE_SIZE
      omega
    constructor
    · exact ⟨_, by unfold send_message; rw [if_pos hle]⟩
    · exact ⟨_, by unfold send_private_message; rw [if_pos hle]⟩

/-- Witness for C3: a 257-byte all-zero ciphertext is rejected by both send
paths, and a 256-byte one is accepted by both. -/
theorem C3_size_bound_witness :
    (send_message 1 ⟨2, zeros32, 0, 0⟩ (List.replicate 257 0) zeros24 0 0
        = .error (.code .MessageTooLong) ∧
      send_private_message 1 ⟨0, 0⟩ 0 zeros32 zeros32 (List.replicate 257 0)
        zeros24 zeros32 0 0 0 = .error (.code .MessageTooLong)) ∧
    ((∃ r, send_message 1 ⟨2, zeros32, 0, 0⟩ (List.replicate 256 0) zeros24 0 0
        = .ok r) ∧
      (∃ r, send_private_message 1 ⟨0, 0⟩ 0 zeros32 zeros32 (List.replicate 256 0)
        zeros24 zeros32 0 0 0 = .ok r)) := by
  constructor
  · exact (C3_size_bound 1 ⟨2, zeros32, 0, 0⟩ ⟨0, 0⟩ 0 zeros32 zeros32
      (List.replicate 257 0) zeros24 zeros32 0 0 0).1
      (by rw [List.length_replicate])
  · exact (C3_size_bound 1 ⟨2, zeros32, 0, 0⟩ ⟨0, 0⟩ 0 zeros32 zeros32
      (List.replicate 256 0) zeros24 zeros32 0 0 0).2
      (by rw [List.length_replicate])

/-- C6: `mark_as_read` called by the message's recipient sets the read flag,
and a second call by the recipient leaves the stored message identical to
one call (idempotent, not an error); any other caller fails with
`Unauthorized` and no updated message is produced. -/
theorem C6_mark_as_read (reader : Pubkey) (message_account : MessageAccount) :
    (reader = message_account.recipient →
      mark_as_read reader message_account
        = .ok ({ message_account with is_read := true },
            [Event.messageRead message_account.sender message_account.recipient
              message_account.timestamp]) ∧
      mark_as_read reader { message_account with is_read := true }
        = .ok ({ message_account with is_read := true },
            [Event.messageRead message_account.sender message_account.recipient
              message_account.timestamp])) ∧
    (reader ≠ message_account.recipient →
      mark_as_read reader message_account = .error (.code .Unauthorized)) := by
  constructor
  · intro h
    constructor
    · unfold mark_as_read
      rw [if_pos h]
    · unfold mark_as_read
      rw [if_pos h]
  · intro h
    unfold mark_as_read
    rw [if_neg h]

/-- Witness for C6: a concrete message with recipient 5; the recipient's
double call fixes `is_read := true` once, and caller 6 is rejected. -/
theorem C6_mark_as_read_witness :
    (mark_as_read 5 ⟨4, 5, [], zeros24, 0, false, 0⟩
        = .ok (⟨4, 5, [], zeros24, 0, true, 0⟩, [Event.messageRead 4 5 0]) ∧
      mark_as_read 5 ⟨4, 5, [], zeros24, 0, true, 0⟩
        = .ok (⟨4, 5, [], zeros24, 0, true, 0⟩, [Event.messageRead 4 5 0])) ∧
    mark_as_read 6 ⟨4, 5, [], zeros24, 0, false, 0⟩
      = .error (.code .Unauthorized) := by
  constructor
  · exact (C6_mark_as_read 5 ⟨4, 5, [], zeros24, 0, false, 0⟩).1 rfl
  · exact (C6_mark_as_read 6 ⟨4, 5, [], zeros24, 0, false, 0⟩).2 (by decide)

/-- C8: `update_user_key` by a signer other than the account's owner is
rejected (the `seeds = [b"user", owner.key()]` constraint fails, the
spec's authorization error) and no updated account is produced, so the
stored key is unchanged; when the signer is the owner the key is replaced
in place. -/
theorem C8_rotate_key_auth (owner : Pubkey) (user_account : UserAccount)
    (new_key : Bytes32) :
    (owner ≠ user_account.wallet →
      update_user_key owner user_account new_key = .error .constraintSeeds) ∧
    (owner = user_account.wallet →
      update_user_key owner user_account new_key
        = .ok ({ user_account with x25519_pubkey := new_key },
            [Event.userKeyUpdated user_account.wallet new_key])) := by
  constructor
  · intro h
    unfold update_user_key
    rw [if_neg (fun hw => h hw.symm)]
  · intro h
    unfold update_user_key
    rw [if_pos h.symm]

/-- Witness for C8: signer 7 cannot rotate the key of the account owned by
wallet 3; signer 3 can, and the key is replaced. -/
theorem C8_rotate_key_auth_witness :
    update_user_key 7 ⟨3, zeros32, 0, 0⟩ lastByteOne = .error .constraintSeeds ∧
    update_user_key 3 ⟨3, zeros32, 0, 0⟩ lastByteOne
      = .ok (⟨3, lastByteOne, 0, 0⟩, [Event.userKeyUpdated 3 lastByteOne]) := by
  constructor
  · exact (C8_rotate_key_auth 7 ⟨3, zeros32, 0, 0⟩ lastByteOne).1 (by decide)
  · exact (C8_rotate_key_auth 3 ⟨3, zeros32, 0, 0⟩ lastByteOne).2 rfl

/-- C10: a successful `update_user_key` changes only `x25519_pubkey`; the
`wallet`, `message_count` and `bump` fields are unchanged. -/
theorem C10_rotate_key_frame (owner : Pubkey) (user_account : UserAccount)
    (new_key : Bytes32) (user' : UserAccount) (events : List Event)
    (h : update_user_key owner user_account new_key = .ok (user', events)) :
    user'.wallet = user_account.wallet ∧
    user'.message_count = user_account.message_count ∧
    user'.bump = user_account.bump ∧
    user'.x25519_pubkey = new_key := by
  unfold update_user_key at h
  by_cases hw : user_account.wallet = owner
  · rw [if_pos hw] at h
    cases h
    exact ⟨rfl, rfl, rfl, rfl⟩
  · rw [if_neg hw] at h
    cases h

/-- Witness for C10: the successful rotation by owner 3 keeps wallet,
message count and bump. -/
theorem C10_rotate_key_frame_witness :
    (⟨3, lastByteOne, 4, 9⟩ : UserAccount).wallet = (⟨3, zeros32, 4, 9⟩ : UserAccount).wallet ∧
    (⟨3, lastByteOne, 4, 9⟩ : UserAccount).message_count = (⟨3, zeros32, 4, 9⟩ : UserAccount).message_count ∧
    (⟨3, lastByteOne, 4, 9⟩ : UserAccount).bump = (⟨3, zeros32, 4, 9⟩ : UserAccount).bump ∧
    (⟨3, lastByteOne, 4, 9⟩ : UserAccount).x25519_pubkey = lastByteOne :=
  C10_rotate_key_frame 3 ⟨3, zeros32, 4, 9⟩ lastByteOne ⟨3, lastByteOne, 4, 9⟩
    [Event.userKeyUpdated 3 lastByteOne] rfl

/-- C7: the argument bundle submitted by `verify_private_message_access`
consists, in order, of the caller's ephemeral public key, the caller's
nonce, the message's stored encrypted recipient commitment, and the
caller-supplied encrypted requester commitment; the computation is queued
with exactly the one `VerifyAndRevealSenderCallback` registration,
`num_shards = 1` and `confirmation_delay = 0`. -/
theorem C7_request_bundle (message : PrivateMessageAccount)
    (computation_offset : Nat) (encrypted_requester_hash : Bytes32)
    (mpc_pubkey : Bytes32) (mpc_nonce : Nat) (mxe_account sign_bump : Nat) :
    (verify_private_message_access message computation_offset
        encrypted_requester_hash mpc_pubkey mpc_nonce mxe_account sign_bump).2.1
      = { computation_offset := computation_offset
          args := [Arg.x25519_pubkey mpc_pubkey,
                   Arg.plaintext_u128 mpc_nonce,
                   Arg.encrypted_u8 message.encrypted_recipient_hash,
                   Arg.encrypted_u8 encrypted_requester_hash]
          callback_server := none
          callbacks := [CallbackIx.verifyAndRevealSender computation_offset mxe_account]
          num_shards := 1
          confirmation_delay := 0 } := rfl

/-- C4: the settle callback fails with `AbortedComputation` exactly when
`verify_output` rejects the cluster's signed output (in which case the
result is an error and no event is emitted), and on successful verification
it emits exactly the one `PrivateAccessVerified` event holding output
ciphertext 0 and the output nonce. -/
theorem C4_settle_verification (cluster_account computation_account : Nat)
    (output : SignedComputationOutputs VerifyAndRevealSenderOutput) :
    (verify_and_reveal_sender_callback cluster_account computation_account output
        = .error (.code .AbortedComputation)
      ↔ output.verify_output cluster_account computation_account = none) ∧
    (∀ o, output.verify_output cluster_account computation_account = some o →
      verify_and_reveal_sender_callback cluster_account computation_account output
        = .ok [Event.privateAccessVerified (o.field_0.ciphertexts 0)
            (u128_to_le_bytes o.field_0.nonce)]) := by
  unfold verify_and_reveal_sender_callback
  cases houtput : output.verify_output cluster_account computation_account with
  | none => simp
  | some o => simp

/-- Witness for C4: an always-rejecting output aborts, a verified output
emits the single encrypted-result event. -/
theorem C4_settle_verification_witness :
    verify_and_reveal_sender_callback 0 0 outputAborted
      = .error (.code .AbortedComputation) ∧
    verify_and_reveal_sender_callback 0 0 outputVerified
      = .ok [Event.privateAccessVerified (exResult.ciphertexts 0)
          (u128_to_le_bytes exResult.nonce)] := by
  constructor
  · exact (C4_settle_verification 0 0 outputAborted).1.mpr rfl
  · exact (C4_settle_verification 0 0 outputVerified).2 ⟨exResult⟩ rfl

/-- C2: across the confidential-message lifecycle (create → request →
settle), the emitted notices are exactly one `PrivateMessageSent` carrying
only the index and timestamp, plus — only when settlement verifies — one
`PrivateAccessVerified` carrying only the 32-byte encrypted result and the
16-byte nonce derived from the cluster output.  The right-hand side mentions
none of: the sender signer, the encrypted sender/recipient commitments, the
requester commitment, or any plaintext identity, so no notice field can
equal one. -/
theorem C2_lifecycle_non_leakage (sender : Pubkey) (counter : PrivateMessageCounter)
    (message_index : Nat) (esh erh : Bytes32) (encrypted_content : List Nat)
    (nonce : Bytes24) (mpc_pubkey : Bytes32) (mpc_nonce : Nat) (clock : Int)
    (bump : Nat) (computation_offset : Nat) (erq req_pubkey : Bytes32)
    (req_nonce : Nat) (mxe_account sign_bump cluster_account computation_account : Nat)
    (output : SignedComputationOutputs VerifyAndRevealSenderOutput)
    (h : encrypted_content.length ≤ MAX_MESSAGE_SIZE) :
    confidential_lifecycle_events sender counter message_index esh erh
        encrypted_content nonce mpc_pubkey mpc_nonce clock bump
        computation_offset erq req_pubkey req_nonce mxe_account sign_bump
        cluster_account computation_account output
      = Event.privateMessageSent message_index clock ::
          (match output.verify_output cluster_account computation_account with
           | some o => [Event.privateAccessVerified (o.field_0.ciphertexts 0)
               (u128_to_le_bytes o.field_0.nonce)]
           | none => []) := by
  unfold confidential_lifecycle_events send_private_message
    verify_private_message_access verify_and_reveal_sender_callback
  rw [if_pos h]
  cases houtput : output.verify_output cluster_account computation_account with
  | none => simp
  | some o => simp

/-- Witness for C2: a concrete lifecycle whose settlement aborts emits only
the index-and-timestamp notice. -/
theorem C2_lifecycle_non_leakage_witness :
    confidential_lifecycle_events 1 ⟨0, 0⟩ 7 zeros32 lastByteOne [] zeros24
        zeros32 0 0 0 0 zeros32 zeros32 0 0 0 0 0 outputAborted
      = [Event.privateMessageSent 7 0] :=
  C2_lifecycle_non_leakage 1 ⟨0, 0⟩ 7 zeros32 lastByteOne [] zeros24
    zeros32 0 0 0 0 zeros32 zeros32 0 0 0 0 0 outputAborted (by decide)

/-- Counterexample for C5 as stated: two consecutive successful
`send_private_message` calls (same sender, fresh storage slots 5 and then 3,
counter threaded through) emit the caller-supplied indices 5 and then 3,
which do not strictly increase — the emitted `message_index` is not the
sequence counter (the counter went 0 → 1 → 2). -/
theorem C5_counterexample :
    send_private_message 1 ⟨0, 0⟩ 5 zeros32 zeros32 [] zeros24 zeros32 0 0 0
      = .ok (⟨zeros32, zeros32, [], zeros24, 0, zeros32, 0, 0⟩, ⟨1, 0⟩,
          [Event.privateMessageSent 5 0]) ∧
    send_private_message 1 ⟨1, 0⟩ 3 zeros32 zeros32 [] zeros24 zeros32 0 0 0
      = .ok (⟨zeros32, zeros32, [], zeros24, 0, zeros32, 0, 0⟩, ⟨2, 0⟩,
          [Event.privateMessageSent 3 0]) ∧
    ¬ 5 < 3 :=
  ⟨rfl, rfl, by decide⟩

/-- C5 (amended): every successful `send_private_message` increments the
global sequence counter by exactly 1, and the `PrivateMessageSent` notice
carries the caller-supplied `message_index` and the timestamp; the emitted
index is not taken from the counter, so emitted indices across successful
sends need not strictly increase. -/
theorem C5_amended_counter_increment (sender : Pubkey)
    (counter : PrivateMessageCounter) (message_index : Nat)
    (esh erh : Bytes32) (encrypted_content : List Nat) (nonce : Bytes24)
    (mpc_pubkey : Bytes32) (mpc_nonce : Nat) (clock : Int) (bump : Nat)
    (message : PrivateMessageAccount) (counter' : PrivateMessageCounter)
    (events : List Event)
    (h : send_private_message sender counter message_index esh erh
        encrypted_content nonce mpc_pubkey mpc_nonce clock bump
      = .ok (message, counter', events)) :
    counter'.count = counter.count + 1 ∧
    events = [Event.privateMessageSent message_index clock] := by
  unfold send_private_message at h
  by_cases hlen : encrypted_content.length ≤ MAX_MESSAGE_SIZE
  · rw [if_pos hlen] at h
    cases h
    exact ⟨rfl, rfl⟩
  · rw [if_neg hlen] at h
    cases h

/-- Witness for C5 (amended): the concrete successful send at index 5 above
has counter 0 → 1 and emits exactly the index-and-timestamp notice. -/
theorem C5_amended_counter_increment_witness :
    (⟨1, 0⟩ : PrivateMessageCounter).count
        = (⟨0, 0⟩ : PrivateMessageCounter).count + 1 ∧
    [Event.privateMessageSent 5 0] = [Event.privateMessageSent 5 (0 : Int)] :=
  C5_amended_counter_increment 1 ⟨0, 0⟩ 5 zeros32 zeros32 [] zeros24 zeros32 0 0 0
    ⟨zeros32, zeros32, [], zeros24, 0, zeros32, 0, 0⟩ ⟨1, 0⟩
    [Event.privateMessageSent 5 0] rfl
